import Mathlib

/-
Verification of the Sardaar Ji WhatsApp webhook (src/webhook.py) against its
natural-language specification.  The Python source is shallowly embedded:
each Python function becomes a Lean definition over explicit state
(a `Sheet` of string cells), Python strings become Lean `String`, Python
`None`-able values become `Option String`, timestamps (`iso_now`,
`datetime.now().strftime(...)`) are passed in as explicit parameters, and the
external Twilio signature validator and the Google Sheets API failure mode
are abstract parameters.
-/

namespace SardaarWebhook

/-! ## Python string primitives -/

/-- Python `str.strip()`: drop leading and trailing whitespace. -/
def pyStrip (s : String) : String :=
  String.mk (((s.data.dropWhile Char.isWhitespace).reverse.dropWhile Char.isWhitespace).reverse)

/-- Python `str.upper()` (ASCII range, as used by the webhook's keywords). -/
def pyUpper (s : String) : String :=
  String.mk (s.data.map Char.toUpper)

/-- Python `s.endswith(post)`. -/
def pyEndsWith (s post : String) : Bool :=
  post.data.isSuffixOf s.data

/-- Python `a or b` on two strings (first operand if truthy, i.e. non-empty). -/
def pyOrStr (a b : String) : String :=
  if a = "" then b else a

/-- Python `(a or b or "")` where `a b : Option String` come from `dict.get`. -/
def formOr (a b : Option String) : String :=
  match a with
  | some s => if s = "" then (match b with | some t => t | none => "") else s
  | none => match b with | some t => t | none => ""

/-- The characters removed by
`e164.replace("+", "").replace(" ", "").replace("-", "")`
in `find_row_index_by_phone` (each pattern is a single character, so the
three `replace` calls filter those characters out). -/
def cleanPhone (s : String) : String :=
  String.mk (s.data.filter (fun c => !(c == '+' || c == ' ' || c == '-')))

/-- The pattern removed by `wa_from.replace("whatsapp:", "")`. -/
def waPat : List Char := "whatsapp:".data

/-- Fuel-driven model of Python `str.replace("whatsapp:", "")`: remove every
(non-overlapping, leftmost-first) occurrence of the pattern.  The fuel is the
input length, which suffices because the pattern is non-empty. -/
def stripWaGo : Nat → List Char → List Char
  | _, [] => []
  | 0, l => l
  | fuel + 1, c :: cs =>
    if waPat.isPrefixOf (c :: cs) then stripWaGo fuel ((c :: cs).drop waPat.length)
    else c :: stripWaGo fuel cs

/-- `normalize_e164(wa_from)`: `(wa_from or "").replace("whatsapp:", "").strip()`. -/
def normalize_e164 (waFrom : Option String) : String :=
  pyStrip (String.mk (stripWaGo (waFrom.getD "").data.length (waFrom.getD "").data))

/-! ## Spreadsheet model

A worksheet is its header row plus its data rows; sheet row number `i`
(1-based, as used by gspread) denotes the header row for `i = 1` and
`rows[i - 2]` for `i ≥ 2`. -/

structure Sheet where
  headers : List String
  rows : List (List String)
deriving DecidableEq

/-- `ws.row_values(idx)` (1-based; out-of-range data rows read as empty). -/
def Sheet.rowValues (ws : Sheet) (idx : Nat) : List String :=
  if idx = 1 then ws.headers else ws.rows.getD (idx - 2) []

/-- Pad a row with empty cells up to length `n` (no-op if already longer). -/
def padTo (l : List String) (n : Nat) : List String :=
  l ++ List.replicate (n - l.length) ""

/-- One record of `ws.get_all_records()`: the header row zipped with the
(padded) data row, read as a Python dict keyed by header. -/
abbrev Record := List (String × String)

def mkRecord (headers row : List String) : Record :=
  headers.zip (padTo row headers.length)

/-- `ws.get_all_records()`. -/
def Sheet.records (ws : Sheet) : List Record :=
  ws.rows.map (mkRecord ws.headers)

/-- Python `row.get(key, dflt)` on a dict built left to right (for duplicate
keys the later assignment wins, hence the reversed search). -/
def getField (r : Record) (k dflt : String) : String :=
  match r.reverse.find? (fun p => p.1 == k) with
  | some p => p.2
  | none => dflt

/-- `ws.update_cell(rowIdx, col, v)` (1-based row and column; gspread pads
the row when the column lies beyond its current width). -/
def Sheet.updateCell (ws : Sheet) (rowIdx col : Nat) (v : String) : Sheet :=
  let r := padTo (ws.rows.getD (rowIdx - 2) []) col
  { ws with rows := ws.rows.set (rowIdx - 2) (r.set (col - 1) v) }

/-! ## Header aliasing (`_normalize`, `_HEADER_LOGICALS`, `_build_header_map`) -/

/-- `_normalize(h)`: lower-case and keep only alphanumeric characters. -/
def _normalize (h : String) : String :=
  String.mk ((h.data.map Char.toLower).filter Char.isAlphanum)

/-- `_HEADER_LOGICALS`, in the source's (insertion-ordered) dict order. -/
def _HEADER_LOGICALS : List (String × List String) :=
  [ ("dnc", ["do_not contact", "do not contact", "do_not_contact", "donotcontact"]),
    ("optin_date", ["opt in date", "opt_in date", "opt_in_date", "optindate"]),
    ("optin_source", ["opt_in source", "opt in source", "optinsource"]),
    ("optout_date", ["opt out date", "opt_out date", "opt_out_date", "optoutdate"]),
    ("phone", ["Phone", "phone"]),
    ("status", ["Status", "status"]),
    ("error", ["Error", "error"]),
    ("sid", ["SID", "sid"]) ]

/-- Lookup in `norm_to_actual = {_normalize(h): h for h in headers}`: for
duplicate normalized forms the later header wins. -/
def normToActual (headers : List String) (n : String) : Option String :=
  headers.reverse.find? (fun h => _normalize h == n)

/-- Resolve the first variant of a logical key that has a live header. -/
def resolveVariant (headers : List String) : List String → Option String
  | [] => none
  | v :: vs =>
    match normToActual headers (_normalize v) with
    | some actual => some actual
    | none => resolveVariant headers vs

/-- `_build_header_map(ws)` over the worksheet's header row. -/
def _build_header_map (headers : List String) : List (String × String) :=
  _HEADER_LOGICALS.filterMap (fun kv => (resolveVariant headers kv.2).map (fun a => (kv.1, a)))

/-! ## `set_row_values` -/

/-- Index of `hmap[h]` where `hmap = {h: i for i, h in enumerate(headers)}`
(for duplicate headers the later index wins). -/
def lastIdxOf (headers : List String) (h : String) : Option Nat :=
  (headers.reverse.findIdx? (fun x => x == h)).map (fun i => headers.length - 1 - i)

/-- The `actual` header a logical key resolves to: `HEADER_MAP` first, else
the key itself when it literally occurs among the headers. -/
def resolveActual (hm : List (String × String)) (headers : List String) (k : String) : Option String :=
  match hm.lookup k with
  | some a => some a
  | none => if k ∈ headers then some k else none

/-- The column (0-based) a logical key writes to, mirroring
`if actual and actual in hmap: cur[hmap[actual]] = value`
(`actual` must be truthy, i.e. a non-empty string, and a live header). -/
def writesCol (hm : List (String × String)) (headers : List String) (k : String) : Option Nat :=
  match resolveActual hm headers k with
  | some a => if a = "" then none else lastIdxOf headers a
  | none => none

/-- One iteration of the `for logical_key, value in updates_logical.items()` loop. -/
def applyUpdate (hm : List (String × String)) (headers : List String)
    (cur : List String) (kv : String × String) : List String :=
  match writesCol hm headers kv.1 with
  | some i => cur.set i kv.2
  | none => cur

/-- `set_row_values(ws, row_idx, updates_logical)` with the process-wide
`HEADER_MAP` passed explicitly.  The full width of the target row
(columns 1..len(headers)) is written back via `update_cells`; cells beyond
the header width are untouched. -/
def set_row_values (hm : List (String × String)) (ws : Sheet) (rowIdx : Nat)
    (updates : List (String × String)) : Sheet :=
  let headers := ws.headers
  let old := ws.rowValues rowIdx
  let cur0 := padTo old headers.length
  let cur := updates.foldl (applyUpdate hm headers) cur0
  let newRow := cur.take headers.length ++ old.drop headers.length
  if rowIdx = 1 then { ws with headers := newRow }
  else { ws with rows := ws.rows.set (rowIdx - 2) newRow }

/-! ## Phone lookup (`find_row_index_by_phone`) -/

/-- The scan loop of `find_row_index_by_phone`, carrying the 1-based sheet
row number (`enumerate(records, start=2)`) and the pre-cleaned incoming
value. -/
def findGo (ph ci : String) : Nat → List Record → Option (Nat × Record)
  | _, [] => none
  | idx, r :: rest =>
    if pyStrip (getField r ph "") = "" then findGo ph ci (idx + 1) rest
    else if ci == cleanPhone (pyStrip (getField r ph "")) then some (idx, r)
    else if pyEndsWith ci (cleanPhone (pyStrip (getField r ph ""))) then some (idx, r)
    else if pyEndsWith (cleanPhone (pyStrip (getField r ph ""))) ci then some (idx, r)
    else findGo ph ci (idx + 1) rest

/-- `find_row_index_by_phone(e164)` over the consent sheet's records, with
the phone-column header passed in (`HEADER_MAP.get("phone", "Phone")`).
`(None, None)` becomes `none`. -/
def find_row_index_by_phone (ph : String) (records : List Record) (e164 : String) :
    Option (Nat × Record) :=
  findGo ph (cleanPhone e164) 2 records

/-- First record (with its 1-based sheet row number) satisfying a predicate. -/
def firstMatchFrom (p : Record → Bool) : Nat → List Record → Option (Nat × Record)
  | _, [] => none
  | i, r :: rs => if p r then some (i, r) else firstMatchFrom p (i + 1) rs

/-- The per-row matcher actually implemented by the scan: skip rows whose
stored phone cell strips to empty, else compare the cleaned values by
equality or suffix in either direction. -/
def rowMatches (ph e164 : String) (r : Record) : Bool :=
  if pyStrip (getField r ph "") = "" then false
  else
    cleanPhone e164 == cleanPhone (pyStrip (getField r ph "")) ||
    pyEndsWith (cleanPhone e164) (cleanPhone (pyStrip (getField r ph ""))) ||
    pyEndsWith (cleanPhone (pyStrip (getField r ph ""))) (cleanPhone e164)

/-- Modelled from the spec: the claim's row-match rule, which strips `+`,
spaces and hyphens from both the incoming and the stored value and matches
iff the cleaned values are equal or one is a suffix of the other, with no
provision for skipping blank stored cells. -/
def claimMatchRule (e164 stored : String) : Bool :=
  cleanPhone e164 == cleanPhone stored ||
  pyEndsWith (cleanPhone e164) (cleanPhone stored) ||
  pyEndsWith (cleanPhone stored) (cleanPhone e164)

/-! ## Command classifier and inbound handler -/

inductive Intent
  | unsubscribe
  | resubscribe
  | other
deriving DecidableEq

/-- The unsubscribe keyword set of the inbound handler. -/
def unsubTokens : List String := ["SALIR", "UNSUBSCRIBE", "CANCEL", "END", "STOP", "BAJA", "ALTO"]

/-- The resubscribe keyword set of the inbound handler. -/
def resubTokens : List String := ["START", "YES", "SI"]

/-- The handler's keyword dispatch on the trimmed, upper-cased body. -/
def classify (body : String) : Intent :=
  if body ∈ unsubTokens then Intent.unsubscribe
  else if body ∈ resubTokens then Intent.resubscribe
  else Intent.other

def unsubReplyText : String :=
  "❌ You’ve been unsubscribed from Sardaar Ji promotions. Reply START to resubscribe. / ❌ Has sido dado de baja de Sardaar Ji. Responde START para suscribirte de nuevo."

def resubReplyText : String := "✅ Subscribed / ✅ Suscripción activada"

def defaultReplyText : String := "🍛 Thanks for contacting Sardaar Ji Indian Cuisine Panama!"

/-- `handle_unsubscribe(row_idx)` (success path of the background thread),
with `iso_now()` passed in as `now`. -/
def handle_unsubscribe (hm : List (String × String)) (sheet : Sheet) (rowIdx : Nat)
    (now : String) : Sheet :=
  set_row_values hm sheet rowIdx [("dnc", "TRUE"), ("optout_date", now)]

/-- `handle_resubscribe(row_idx)` (success path of the background thread). -/
def handle_resubscribe (hm : List (String × String)) (sheet : Sheet) (rowIdx : Nat)
    (now : String) : Sheet :=
  set_row_values hm sheet rowIdx
    [("dnc", "FALSE"), ("optin_source", "Resubscribe"), ("optin_date", now)]

/-- The inbound handler's body after signature validation: returns the list
of messages added to the `MessagingResponse` and the consent sheet after the
spawned background update (on its success path) has run. -/
def inboundFlow (hm : List (String × String)) (sheet : Sheet)
    (fromField bodyField : Option String) (now : String) : List String × Sheet :=
  let fromNum := normalize_e164 fromField
  let body := pyUpper (pyStrip (bodyField.getD ""))
  match find_row_index_by_phone ((hm.lookup "phone").getD "Phone") sheet.records fromNum with
  | none => ([], sheet)
  | some (rowIdx, _) =>
    match classify body with
    | Intent.unsubscribe => ([unsubReplyText], handle_unsubscribe hm sheet rowIdx now)
    | Intent.resubscribe => ([resubReplyText], handle_resubscribe hm sheet rowIdx now)
    | Intent.other => ([defaultReplyText], sheet)

/-! ## HTTP layer -/

structure Request where
  url : String
  form : List (String × String)
  reqHeaders : List (String × String)
deriving DecidableEq

/-- `request.form.get(k)` (first value, per werkzeug `to_dict`). -/
def formGet (form : List (String × String)) (k : String) : Option String :=
  (form.find? (fun p => p.1 == k)).map (fun p => p.2)

/-- `request.headers.get(k, "")`. -/
def headerGet (req : Request) (k : String) : String :=
  match req.reqHeaders.find? (fun p => p.1 == k) with
  | some p => p.2
  | none => ""

/-- `is_valid_twilio_request(req)` with the external `RequestValidator`
abstracted as `validate` and `TWILIO_AUTH_TOKEN` as `token`
(`if not TWILIO_AUTH_TOKEN: return True`). -/
def is_valid_twilio_request (validate : String → List (String × String) → String → Bool)
    (token : String) (req : Request) : Bool :=
  if token = "" then true
  else validate req.url req.form (headerGet req "X-Twilio-Signature")

inductive HttpResponse
  | twiml (messages : List String)
  | text (body : String) (code : Nat)
  | forbidden
deriving DecidableEq

/-- The `/twilio/inbound` endpoint (`inbound()`): signature gate, then the
classify/reply/persist flow. -/
def inbound (validate : String → List (String × String) → String → Bool) (token : String)
    (req : Request) (hm : List (String × String)) (sheet : Sheet) (now : String) :
    HttpResponse × Sheet :=
  if is_valid_twilio_request validate token req then
    let r := inboundFlow hm sheet (formGet req.form "From") (formGet req.form "Body") now
    (HttpResponse.twiml r.1, r.2)
  else (HttpResponse.forbidden, sheet)

/-! ## Status callback -/

def requiredHeaders : List String :=
  ["Date", "Name", "Phone", "Type", "Message", "Status", "Error", "SID"]

/-- The header check of `status_callback`: `ws.update("A1:H1", [required])`
overwrites the first eight header cells when they differ. -/
def fixHeaders (ws : Sheet) : Sheet :=
  if ws.headers = requiredHeaders then ws
  else { ws with headers := requiredHeaders ++ ws.headers.drop 8 }

/-- The SID scan of `status_callback` (`enumerate(records, start=2)`,
`str(r.get("SID", "")).strip() == sid`, first hit wins). -/
def findSidFrom (sid : String) : Nat → List Record → Option Nat
  | _, [] => none
  | i, r :: rs =>
    if pyStrip (getField r "SID" "") == sid then some i else findSidFrom sid (i + 1) rs

/-- The message-log upsert inside the `try` block of `status_callback`:
fix the headers, scan for the sid, update the `Status` and `Error` cells of
the first hit, or append a fresh row.  `errv` is `error_code or
error_message`; `nowStr` is `datetime.now().strftime("%d-%m-%Y %H:%M")`. -/
def statusUpsert (ws0 : Sheet) (sid status errv ton nowStr : String) : Sheet :=
  let ws := fixHeaders ws0
  let statusCol := requiredHeaders.findIdx (fun h => h == "Status") + 1
  let errorCol := requiredHeaders.findIdx (fun h => h == "Error") + 1
  match findSidFrom sid 2 ws.records with
  | some i => (ws.updateCell i statusCol status).updateCell i errorCol errv
  | none =>
    { ws with rows := ws.rows ++ [[nowStr, "", ton, "Status Update", "", status, errv, sid]] }

/-- The `/twilio/status` endpoint (`status_callback()`): signature gate,
field extraction with empty-string defaults, then the upsert wrapped in
`try/except` — `apiFail` injects an exception from the external sheets
client, which is caught and swallowed; the response is `"OK", 200` either
way. -/
def status_callback (validate : String → List (String × String) → String → Bool)
    (token : String) (req : Request) (log : Sheet) (nowStr : String)
    (apiFail : Option String) : HttpResponse × Sheet :=
  if is_valid_twilio_request validate token req then
    let sid := pyStrip (formOr (formGet req.form "MessageSid") (formGet req.form "SmsSid"))
    let status := pyStrip ((formGet req.form "MessageStatus").getD "")
    let errorCode := pyStrip ((formGet req.form "ErrorCode").getD "")
    let errorMessage := pyStrip ((formGet req.form "ErrorMessage").getD "")
    let toNumber := normalize_e164 (formGet req.form "To")
    match apiFail with
    | some _ => (HttpResponse.text "OK" 200, log)
    | none =>
      (HttpResponse.text "OK" 200,
        statusUpsert log sid status (pyOrStr errorCode errorMessage) toNumber nowStr)
  else (HttpResponse.forbidden, log)

/-! ## Concrete fixtures used by witnesses and counterexamples -/

def demoHeaders : List String := ["Phone", "do not contact", "opt out date"]

def demoSheet : Sheet := ⟨demoHeaders, [["+50712345678", "", ""]]⟩

def demoHm : List (String × String) := _build_header_map demoHeaders

def demoLog : Sheet := ⟨requiredHeaders, []⟩

/-! ## Helper lemmas -/

theorem pyEndsWith_empty (s : String) : pyEndsWith s "" = true :=
  List.isSuffixOf_nil_left

theorem cleanPhone_empty : cleanPhone "" = "" := rfl

theorem findGo_eq_firstMatchFrom (ph e164 : String) :
    ∀ (rs : List Record) (i : Nat),
      findGo ph (cleanPhone e164) i rs = firstMatchFrom (rowMatches ph e164) i rs := by
  intro rs
  induction rs with
  | nil => intro i; rfl
  | cons r rest ih =>
    intro i
    by_cases h0 : pyStrip (getField r ph "") = ""
    · simp [findGo, firstMatchFrom, rowMatches, h0, ih]
    · simp only [findGo, firstMatchFrom, rowMatches, h0, if_false]
      cases h1 : (cleanPhone e164 == cleanPhone (pyStrip (getField r ph ""))) <;>
        cases h2 : pyEndsWith (cleanPhone e164) (cleanPhone (pyStrip (getField r ph ""))) <;>
          cases h3 : pyEndsWith (cleanPhone (pyStrip (getField r ph ""))) (cleanPhone e164) <;>
            simp [h1, h2, h3, ih]

theorem firstMatchFrom_congr (p q : Record → Bool) (hpq : ∀ r, p r = q r) :
    ∀ (rs : List Record) (i : Nat), firstMatchFrom p i rs = firstMatchFrom q i rs := by
  intro rs
  induction rs with
  | nil => intro i; rfl
  | cons r rest ih => intro i; simp [firstMatchFrom, hpq r, ih]

theorem firstMatchFrom_ne_none (p : Record → Bool) :
    ∀ (rs : List Record) (i : Nat), (∃ r ∈ rs, p r = true) → firstMatchFrom p i rs ≠ none := by
  intro rs
  induction rs with
  | nil =>
    intro i h
    rcases h with ⟨r, hr, _⟩
    cases hr
  | cons a rest ih =>
    intro i h
    by_cases ha : p a = true
    · simp [firstMatchFrom, ha]
    · rcases h with ⟨r, hr, hp⟩
      rcases List.mem_cons.mp hr with rfl | hr'
      · exact absurd hp ha
      · simpa [firstMatchFrom, ha] using ih (i + 1) ⟨r, hr', hp⟩

theorem rowMatches_empty (ph : String) (r : Record) :
    rowMatches ph "" r = !(pyStrip (getField r ph "") == "") := by
  by_cases h : pyStrip (getField r ph "") = ""
  · simp [rowMatches, h]
  · simp [rowMatches, h, cleanPhone_empty, pyEndsWith_empty]

theorem tokens_disjoint (body : String) (h1 : body ∈ unsubTokens) (h2 : body ∈ resubTokens) :
    False := by
  simp only [unsubTokens, List.mem_cons, List.not_mem_nil, or_false] at h1
  rcases h1 with rfl | rfl | rfl | rfl | rfl | rfl | rfl <;> revert h2 <;> decide

/-! ## Claim theorems -/

/-- C3 (confirmed): for every inbound body (already trimmed and upper-cased),
classification yields `Unsubscribe` exactly when the body is in the fixed
unsubscribe token set, `Resubscribe` exactly when it is in the fixed
resubscribe token set, and `Other` otherwise; in the `Other` case the
handler emits the default canned reply and leaves the consent sheet
untouched.  Membership is exact-string, with no partial matching. -/
theorem classify_exact_membership :
    (∀ body, classify body = Intent.unsubscribe ↔ body ∈ unsubTokens) ∧
    (∀ body, classify body = Intent.resubscribe ↔ body ∈ resubTokens) ∧
    (∀ body, classify body = Intent.other ↔ body ∉ unsubTokens ∧ body ∉ resubTokens) ∧
    (∀ hm (sheet : Sheet) fromF bodyF now idx rec,
      find_row_index_by_phone ((List.lookup "phone" hm).getD "Phone") sheet.records
          (normalize_e164 fromF) = some (idx, rec) →
      classify (pyUpper (pyStrip (bodyF.getD ""))) = Intent.other →
      inboundFlow hm sheet fromF bodyF now = ([defaultReplyText], sheet)) := by
  refine ⟨?_, ?_, ?_, ?_⟩
  · intro body
    by_cases h1 : body ∈ unsubTokens
    · simp [classify, h1]
    · by_cases h2 : body ∈ resubTokens <;> simp [classify, h1, h2]
  · intro body
    by_cases h1 : body ∈ unsubTokens
    · have h2 : body ∉ resubTokens := fun h2 => tokens_disjoint body h1 h2
      simp [classify, h1, h2]
    · by_cases h2 : body ∈ resubTokens <;> simp [classify, h1, h2]
  · intro body
    by_cases h1 : body ∈ unsubTokens
    · simp [classify, h1]
    · by_cases h2 : body ∈ resubTokens <;> simp [classify, h1, h2]
  · intro hm sheet fromF bodyF now idx rec hfind hcls
    simp only [inboundFlow, hfind, hcls]

/-- C3 witness: a matched sender with body `"hello"` (upper-cased to a
non-keyword) gets the default canned reply and no sheet change. -/
theorem classify_exact_membership_witness :
    inboundFlow demoHm demoSheet (some "whatsapp:+50712345678") (some "hello") "T"
      = ([defaultReplyText], demoSheet) :=
  classify_exact_membership.2.2.2 demoHm demoSheet (some "whatsapp:+50712345678")
    (some "hello") "T" 2 (mkRecord demoHeaders ["+50712345678", "", ""])
    (by decide) (by decide)

/-- C4 counterexample: per the claim's match rule a stored cell `" "`
matches incoming `"123"` (the cleaned stored value is empty, and every
string ends with the empty string), yet the scan returns no row — the code
skips rows whose stored phone cell strips to empty, so the claim's
iff fails as stated. -/
theorem find_row_blank_cell_counterexample :
    claimMatchRule "123" " " = true ∧
    find_row_index_by_phone "Phone" [[("Phone", " ")]] "123" = none := by decide

/-- C4 (corrected): the spreadsheet-variant lookup scans rows in order and
returns the earliest match, where a row whose stored phone cell strips to
empty never matches, and any other row matches iff the `+`/space/hyphen-
cleaned values are equal or one is a suffix of the other; in particular
incoming `"50760000000"` matches stored `"+507 6000-0000"`. -/
theorem find_row_scan_characterization :
    (∀ ph records e164,
      find_row_index_by_phone ph records e164 = firstMatchFrom (rowMatches ph e164) 2 records) ∧
    find_row_index_by_phone "Phone" [[("Phone", "+507 6000-0000")]] "50760000000"
      = some (2, [("Phone", "+507 6000-0000")]) := by
  constructor
  · intro ph records e164
    exact findGo_eq_firstMatchFrom ph e164 records 2
  · decide

/-- C8 counterexample: the claim says a stored `"999"` does not match an
unrelated incoming `"1999"`, but the scan does return that row. -/
theorem stored_999_matches_1999_counterexample :
    find_row_index_by_phone "Phone" [[("Phone", "999")]] "1999" ≠ none := by decide

/-- C8 (corrected): a stored `"999"` DOES match an incoming `"1999"`: the
cleaned stored value is a suffix of the cleaned incoming value, so the
stored-is-suffix-of-incoming rule fires and the row is returned. -/
theorem stored_999_matches_1999 :
    find_row_index_by_phone "Phone" [[("Phone", "999")]] "1999"
      = some (2, [("Phone", "999")]) ∧
    pyEndsWith (cleanPhone "1999") (cleanPhone "999") = true := by decide

/-- C10 (confirmed): an absent or empty `From` normalizes to the empty
string, and the lookup then returns the first row whose stored phone cell
is non-empty (after stripping whitespace) rather than reporting a miss,
because every cleaned stored value ends with the empty incoming value. -/
theorem empty_sender_resolves_first_nonempty :
    normalize_e164 none = "" ∧ normalize_e164 (some "") = "" ∧
    (∀ ph records, find_row_index_by_phone ph records "" =
        firstMatchFrom (fun r => !(pyStrip (getField r ph "") == "")) 2 records) ∧
    (∀ ph records, (∃ r ∈ records, pyStrip (getField r ph "") ≠ "") →
        find_row_index_by_phone ph records "" ≠ none) := by
  have hthird : ∀ ph records, find_row_index_by_phone ph records "" =
      firstMatchFrom (fun r => !(pyStrip (getField r ph "") == "")) 2 records := by
    intro ph records
    calc find_row_index_by_phone ph records ""
        = firstMatchFrom (rowMatches ph "") 2 records :=
          findGo_eq_firstMatchFrom ph "" records 2
      _ = firstMatchFrom (fun r => !(pyStrip (getField r ph "") == "")) 2 records :=
          firstMatchFrom_congr _ _ (fun r => rowMatches_empty ph r) records 2
  refine ⟨rfl, rfl, hthird, ?_⟩
  intro ph records h
  rw [hthird ph records]
  apply firstMatchFrom_ne_none
  rcases h with ⟨r, hr, hp⟩
  exact ⟨r, hr, by simp [hp]⟩

/-- C10 witness: the empty incoming value resolves to the (unrelated) only
record of the table instead of a miss. -/
theorem empty_sender_resolves_first_nonempty_witness :
    find_row_index_by_phone "Phone" [[("Phone", "+507 6000-0000")]] "" ≠ none :=
  empty_sender_resolves_first_nonempty.2.2.2 "Phone" [[("Phone", "+507 6000-0000")]]
    ⟨[("Phone", "+507 6000-0000")], by decide, by decide⟩

/-- C1 counterexample: on a consent sheet with no record for
`+50760000000`, the unsubscribe flow (`Body = "STOP"`) leaves the store
unchanged — no record is created, refuting the claimed upsert-on-miss. -/
theorem unsubscribe_miss_counterexample :
    inboundFlow demoHm demoSheet (some "whatsapp:+50760000000") (some "STOP")
        "2026-01-01T00:00:00Z" = ([], demoSheet) ∧
    demoSheet.rows.length = 1 := by decide

/-- C1 (amended): in this spreadsheet variant the unsubscribe operation is
NOT upsert-on-miss: for a phone with no existing record the inbound flow
returns before any store update, so the consent store is unchanged and no
record is created. -/
theorem inbound_miss_store_unchanged :
    ∀ hm (sheet : Sheet) fromF bodyF now,
      find_row_index_by_phone ((List.lookup "phone" hm).getD "Phone") sheet.records
          (normalize_e164 fromF) = none →
      (inboundFlow hm sheet fromF bodyF now).2 = sheet ∧
      (inboundFlow hm sheet fromF bodyF now).2.rows.length = sheet.rows.length := by
  intro hm sheet fromF bodyF now h
  simp [inboundFlow, h]

/-- C1 witness: a concrete miss with an unsubscribe keyword leaves the
store as it was. -/
theorem inbound_miss_store_unchanged_witness :
    (inboundFlow demoHm demoSheet (some "whatsapp:+50761111111") (some "CANCEL") "T").2
        = demoSheet ∧
    (inboundFlow demoHm demoSheet (some "whatsapp:+50761111111") (some "CANCEL") "T").2.rows.length
        = demoSheet.rows.length :=
  inbound_miss_store_unchanged demoHm demoSheet (some "whatsapp:+50761111111") (some "CANCEL")
    "T" (by decide)

/-- C5 counterexample: on a lookup miss the handler's reply is an empty
`MessagingResponse` (no message at all), not the default canned reply the
claim describes. -/
theorem miss_reply_empty_counterexample :
    inbound (fun _ _ _ => true) ""
        ⟨"https://x", [("From", "whatsapp:+50760000000"), ("Body", "STOP")], []⟩
        demoHm demoSheet "T"
      = (HttpResponse.twiml [], demoSheet) ∧
    HttpResponse.twiml ([] : List String) ≠ HttpResponse.twiml [defaultReplyText] := by decide

/-- C5 (amended): when the inbound sender's phone is not found in the
consent store, the handler silently returns an empty reply (a
`MessagingResponse` with no message) and performs no state change. -/
theorem inbound_miss_returns_empty_reply :
    ∀ validate token (req : Request) hm (sheet : Sheet) now,
      is_valid_twilio_request validate token req = true →
      find_row_index_by_phone ((List.lookup "phone" hm).getD "Phone") sheet.records
          (normalize_e164 (formGet req.form "From")) = none →
      inbound validate token req hm sheet now = (HttpResponse.twiml [], sheet) := by
  intro validate token req hm sheet now hv hfind
  simp [inbound, hv, inboundFlow, hfind]

/-- C5 witness: a concrete unmatched sender receives the empty reply and
the sheet is untouched. -/
theorem inbound_miss_returns_empty_reply_witness :
    inbound (fun _ _ _ => true) ""
        ⟨"https://x", [("From", "whatsapp:+50762222222"), ("Body", "HELLO")], []⟩
        demoHm demoSheet "T"
      = (HttpResponse.twiml [], demoSheet) :=
  inbound_miss_returns_empty_reply (fun _ _ _ => true) ""
    ⟨"https://x", [("From", "whatsapp:+50762222222"), ("Body", "HELLO")], []⟩
    demoHm demoSheet "T" (by decide) (by decide)

/-- C6 (confirmed): with a shared secret configured, a request whose
signature fails validation is rejected with 403 by both webhook endpoints
before any body processing, and neither store is mutated; with no secret
configured, every request passes validation. -/
theorem signature_gate :
    ∀ validate token (req : Request) hm (sheet log : Sheet) now nowStr apiFail,
      (token ≠ "" →
        validate req.url req.form (headerGet req "X-Twilio-Signature") = false →
        inbound validate token req hm sheet now = (HttpResponse.forbidden, sheet) ∧
        status_callback validate token req log nowStr apiFail
          = (HttpResponse.forbidden, log)) ∧
      (token = "" → is_valid_twilio_request validate token req = true) := by
  intro validate token req hm sheet log now nowStr apiFail
  constructor
  · intro ht hv
    have hval : is_valid_twilio_request validate token req = false := by
      simp [is_valid_twilio_request, ht, hv]
    constructor
    · simp [inbound, hval]
    · simp [status_callback, hval]
  · intro ht
    simp [is_valid_twilio_request, ht]

/-- C6 witness: a concrete invalid-signature request is rejected by both
endpoints with no store change. -/
theorem signature_gate_witness :
    inbound (fun _ _ _ => false) "tok" ⟨"https://x", [], [("X-Twilio-Signature", "bad")]⟩
        demoHm demoSheet "T" = (HttpResponse.forbidden, demoSheet) ∧
    status_callback (fun _ _ _ => false) "tok"
        ⟨"https://x", [], [("X-Twilio-Signature", "bad")]⟩ demoLog "D" none
      = (HttpResponse.forbidden, demoLog) :=
  (signature_gate (fun _ _ _ => false) "tok"
    ⟨"https://x", [], [("X-Twilio-Signature", "bad")]⟩ demoHm demoSheet demoLog "T" "D"
    none).1 (by decide) rfl

/-- C7 (confirmed): once signature validation passes, the status callback
responds exactly `"OK"` with HTTP 200, for every form payload and every
persistence outcome — an exception from the sheets client (`apiFail`) is
caught and swallowed and never alters the response. -/
theorem status_ok_unconditional :
    ∀ validate token (req : Request) (log : Sheet) nowStr apiFail,
      is_valid_twilio_request validate token req = true →
      (status_callback validate token req log nowStr apiFail).1
        = HttpResponse.text "OK" 200 := by
  intro validate token req log nowStr apiFail hv
  cases apiFail <;> simp [status_callback, hv]

/-- C7 witness: a concrete callback whose persistence raises still gets
`"OK"`/200. -/
theorem status_ok_unconditional_witness :
    (status_callback (fun _ _ _ => true) ""
        ⟨"https://x", [("MessageSid", "SM123"), ("MessageStatus", "delivered")], []⟩
        demoLog "D" (some "boom")).1 = HttpResponse.text "OK" 200 :=
  status_ok_unconditional (fun _ _ _ => true) ""
    ⟨"https://x", [("MessageSid", "SM123"), ("MessageStatus", "delivered")], []⟩
    demoLog "D" (some "boom") (by decide)

/-! ## Lemmas about `set_row_values` -/

theorem applyUpdate_length (hm : List (String × String)) (headers : List String)
    (cur : List String) (kv : String × String) :
    (applyUpdate hm headers cur kv).length = cur.length := by
  unfold applyUpdate
  cases writesCol hm headers kv.1 <;> simp

theorem foldl_applyUpdate_length (hm : List (String × String)) (headers : List String) :
    ∀ (updates : List (String × String)) (cur : List String),
      (updates.foldl (applyUpdate hm headers) cur).length = cur.length := by
  intro updates
  induction updates with
  | nil => intro cur; rfl
  | cons kv rest ih =>
    intro cur
    rw [List.foldl_cons, ih, applyUpdate_length]

theorem foldl_applyUpdate_filter (hm : List (String × String)) (headers : List String) :
    ∀ (updates : List (String × String)) (cur : List String),
      updates.foldl (applyUpdate hm headers) cur
        = (updates.filter (fun kv => (writesCol hm headers kv.1).isSome)).foldl
            (applyUpdate hm headers) cur := by
  intro updates
  induction updates with
  | nil => intro cur; rfl
  | cons kv rest ih =>
    intro cur
    cases hw : writesCol hm headers kv.1 with
    | none =>
      have hid : applyUpdate hm headers cur kv = cur := by simp [applyUpdate, hw]
      rw [List.foldl_cons, hid, List.filter_cons_of_neg (by simp [hw]), ih]
    | some i =>
      rw [List.foldl_cons, List.filter_cons_of_pos (by simp [hw]), List.foldl_cons, ih]

theorem foldl_applyUpdate_getD (hm : List (String × String)) (headers : List String) :
    ∀ (updates : List (String × String)) (cur : List String) (j : Nat),
      (∀ kv ∈ updates, writesCol hm headers kv.1 ≠ some j) →
      (updates.foldl (applyUpdate hm headers) cur).getD j "" = cur.getD j "" := by
  intro updates
  induction updates with
  | nil => intro cur j _; rfl
  | cons kv rest ih =>
    intro cur j h
    rw [List.foldl_cons, ih _ j (fun kv' hkv' => h kv' (List.mem_cons_of_mem _ hkv'))]
    cases hw : writesCol hm headers kv.1 with
    | none => simp [applyUpdate, hw]
    | some i =>
      have hij : i ≠ j := fun he => (h kv (List.mem_cons_self kv rest)) (he ▸ hw)
      simp [applyUpdate, hw, List.getD_eq_getElem?_getD, List.getElem?_set_ne hij]

theorem padTo_getD (old : List String) (n j : Nat) : (padTo old n).getD j "" = old.getD j "" := by
  unfold padTo
  rw [List.getD_eq_getElem?_getD, List.getD_eq_getElem?_getD]
  by_cases h : j < old.length
  · rw [List.getElem?_append_left h]
  · rw [List.getElem?_append_right (Nat.le_of_not_lt h),
      List.getElem?_eq_none (Nat.le_of_not_lt h), List.getElem?_replicate]
    split <;> rfl

theorem newRow_getD (H : Nat) (old cur : List String) (j : Nat) (hcur : H ≤ cur.length)
    (hj : cur.getD j "" = old.getD j "") :
    (cur.take H ++ old.drop H).getD j "" = old.getD j "" := by
  have htake : (cur.take H).length = H := by
    rw [List.length_take]
    omega
  by_cases hjH : j < H
  · rw [List.getD_eq_getElem?_getD, List.getElem?_append_left (by omega),
      List.getElem?_take_of_lt hjH, ← List.getD_eq_getElem?_getD, hj]
  · rw [List.getD_eq_getElem?_getD, List.getElem?_append_right (by omega), htake,
      List.getElem?_drop]
    have : H + (j - H) = j := by omega
    rw [this, ← List.getD_eq_getElem?_getD]

/-- C9 (confirmed): a `set_row_values` update silently drops every logical
field that resolves to no live header (filtering those fields out of the
update set changes nothing), and every cell of the target row whose column
is not written by some updated field keeps its previously stored value
(absent cells reading as blank). -/
theorem set_row_values_drops_and_frames :
    ∀ hm (ws : Sheet) (rowIdx : Nat) (updates : List (String × String)),
      (set_row_values hm ws rowIdx updates
         = set_row_values hm ws rowIdx
             (updates.filter (fun kv => (writesCol hm ws.headers kv.1).isSome))) ∧
      (2 ≤ rowIdx →
        ∀ j, (∀ kv ∈ updates, writesCol hm ws.headers kv.1 ≠ some j) →
          ((set_row_values hm ws rowIdx updates).rowValues rowIdx).getD j ""
            = (ws.rowValues rowIdx).getD j "") := by
  intro hm ws rowIdx updates
  constructor
  · simp only [set_row_values]
    rw [foldl_applyUpdate_filter]
  · intro h2 j hj
    have hne1 : ¬ rowIdx = 1 := by omega
    simp only [set_row_values, hne1, if_false]
    set H := ws.headers.length with hH
    set old := ws.rowValues rowIdx with hold
    set cur := updates.foldl (applyUpdate hm ws.headers) (padTo old H) with hcurdef
    set newRow := cur.take H ++ old.drop H with hnew
    have hcurlen : H ≤ cur.length := by
      rw [hcurdef, foldl_applyUpdate_length]
      unfold padTo
      rw [List.length_append, List.length_replicate]
      omega
    have hpoint : cur.getD j "" = old.getD j "" := by
      rw [hcurdef, foldl_applyUpdate_getD hm ws.headers updates _ j hj, padTo_getD]
    have hrow : (Sheet.rowValues { ws with rows := ws.rows.set (rowIdx - 2) newRow } rowIdx).getD j ""
        = old.getD j "" := by
      unfold Sheet.rowValues
      simp only [hne1, if_false]
      by_cases hk : rowIdx - 2 < ws.rows.length
      · have : (ws.rows.set (rowIdx - 2) newRow).getD (rowIdx - 2) [] = newRow := by
          rw [List.getD_eq_getElem?_getD, List.getElem?_set_self hk]
          rfl
        rw [this, hnew]
        exact newRow_getD H old cur j hcurlen hpoint
      · rw [List.set_eq_of_length_le (Nat.le_of_not_lt hk)]
        rw [hold]
        unfold Sheet.rowValues
        simp only [hne1, if_false]
    rw [hrow, hold]

/-- C9 witness: a field with no matching header is dropped and an untouched
column keeps its value. -/
theorem set_row_values_drops_and_frames_witness :
    ((set_row_values demoHm demoSheet 2 [("no_such_field", "X")]).rowValues 2).getD 0 ""
      = ((demoSheet.rowValues 2).getD 0 "") :=
  (set_row_values_drops_and_frames demoHm demoSheet 2 [("no_such_field", "X")]).2
    (by decide) 0 (by decide)

/-! ## Lemmas about the status-callback upsert -/

theorem padTo_length (l : List String) (n : Nat) :
    (padTo l n).length = l.length + (n - l.length) := by
  unfold padTo
  rw [List.length_append, List.length_replicate]

theorem findSidFrom_bounds (sid : String) :
    ∀ (rs : List Record) (n i : Nat), findSidFrom sid n rs = some i → n ≤ i ∧ i - n < rs.length := by
  intro rs
  induction rs with
  | nil => intro n i h; cases h
  | cons r rest ih =>
    intro n i h
    by_cases hr : (pyStrip (getField r "SID" "") == sid) = true
    · simp only [findSidFrom, hr, if_true, Option.some.injEq] at h
      refine ⟨by omega, ?_⟩
      simp only [List.length_cons]
      omega
    · simp only [findSidFrom, hr, if_false] at h
      have := ih (n + 1) i h
      constructor
      · omega
      · simp only [List.length_cons]
        omega

theorem findSidFrom_append (sid : String) (r : Record) :
    ∀ (rs : List Record) (n : Nat),
      findSidFrom sid n (rs ++ [r])
        = (match findSidFrom sid n rs with
           | some i => some i
           | none =>
             if pyStrip (getField r "SID" "") == sid then some (n + rs.length) else none) := by
  intro rs
  induction rs with
  | nil =>
    intro n
    simp [findSidFrom]
  | cons a rest ih =>
    intro n
    cases ha : (pyStrip (getField a "SID" "") == sid) with
    | true => simp [findSidFrom, ha]
    | false =>
      have hstep : findSidFrom sid n ((a :: rest) ++ [r])
          = findSidFrom sid (n + 1) (rest ++ [r]) := by
        simp [findSidFrom, ha]
      have hstep2 : findSidFrom sid n (a :: rest) = findSidFrom sid (n + 1) rest := by
        simp [findSidFrom, ha]
      rw [hstep, hstep2, ih (n + 1)]
      have harith : n + 1 + rest.length = n + (rest.length + 1) := by omega
      cases h : findSidFrom sid (n + 1) rest <;> simp [h, List.length_cons, harith]

theorem records_append (headers : List String) (rows : List (List String)) (row : List String) :
    Sheet.records ⟨headers, rows ++ [row]⟩
      = Sheet.records ⟨headers, rows⟩ ++ [mkRecord headers row] := by
  simp [Sheet.records]

theorem getField_status_row_sid (nowStr ton status errv sid : String) :
    getField (mkRecord requiredHeaders [nowStr, "", ton, "Status Update", "", status, errv, sid])
      "SID" "" = sid := rfl

theorem fixHeaders_required (ws : Sheet) (h : ws.headers = requiredHeaders) :
    fixHeaders ws = ws := by
  simp [fixHeaders, h]

theorem statusCol_eq : List.findIdx (fun h => h == "Status") requiredHeaders + 1 = 6 := by decide

theorem errorCol_eq : List.findIdx (fun h => h == "Error") requiredHeaders + 1 = 7 := by decide

theorem updateCell_twice_getD (ws : Sheet) (i : Nat) (st ev : String)
    (hk : i - 2 < ws.rows.length) :
    ((ws.updateCell i 6 st).updateCell i 7 ev).rows.length = ws.rows.length ∧
    (((ws.updateCell i 6 st).updateCell i 7 ev).rows.getD (i - 2) []).getD 5 "" = st ∧
    (((ws.updateCell i 6 st).updateCell i 7 ev).rows.getD (i - 2) []).getD 6 "" = ev := by
  set k := i - 2 with hkdef
  set old := ws.rows.getD k [] with holddef
  set r1 := (padTo old 6).set 5 st with hr1def
  have hstep1 : ws.updateCell i 6 st = { ws with rows := ws.rows.set k r1 } := rfl
  have hget1 : (ws.rows.set k r1).getD k [] = r1 := by
    rw [List.getD_eq_getElem?_getD, List.getElem?_set_self hk]
    rfl
  have hstep2 : (ws.updateCell i 6 st).updateCell i 7 ev
      = { ws with rows := (ws.rows.set k r1).set k ((padTo r1 7).set 6 ev) } := by
    rw [hstep1]
    simp only [Sheet.updateCell, hget1]
  have hr1len : 6 ≤ r1.length := by
    rw [hr1def, List.length_set, padTo_length]
    omega
  have hk1 : k < (ws.rows.set k r1).length := by
    rw [List.length_set]
    exact hk
  have hget2 : ((ws.rows.set k r1).set k ((padTo r1 7).set 6 ev)).getD k []
      = (padTo r1 7).set 6 ev := by
    rw [List.getD_eq_getElem?_getD, List.getElem?_set_self hk1]
    rfl
  refine ⟨?_, ?_, ?_⟩
  · rw [hstep2]
    simp [List.length_set]
  · rw [hstep2]
    show (((ws.rows.set k r1).set k ((padTo r1 7).set 6 ev)).getD k []).getD 5 "" = st
    rw [hget2, List.getD_eq_getElem?_getD, List.getElem?_set_ne (by omega)]
    unfold padTo
    rw [List.getElem?_append_left (by omega)]
    rw [hr1def, List.getElem?_set_self (by rw [padTo_length]; omega)]
    rfl
  · rw [hstep2]
    show (((ws.rows.set k r1).set k ((padTo r1 7).set 6 ev)).getD k []).getD 6 "" = ev
    rw [hget2, List.getD_eq_getElem?_getD,
      List.getElem?_set_self (by rw [padTo_length]; omega)]
    rfl

/-- C2 (corrected): the status upsert keeps at most one row per sid — if a
row with the sid exists, its `Status` and `Error` cells are updated in
place and nothing is appended; if none exists, exactly one new row is
appended, carrying the timestamp, the destination phone, the literal type
`"Status Update"`, the status, the error and the sid (name and message
blank) — not only sid/status/error/timestamp as claimed; a second call for
the same sid then updates that row instead of inserting another. -/
theorem status_upsert_per_sid :
    (∀ (ws : Sheet) sid status errv ton nowStr,
      findSidFrom sid 2 (fixHeaders ws).records = none →
      (statusUpsert ws sid status errv ton nowStr).rows
        = (fixHeaders ws).rows ++ [[nowStr, "", ton, "Status Update", "", status, errv, sid]]) ∧
    (∀ (ws : Sheet) sid status errv ton nowStr i,
      findSidFrom sid 2 (fixHeaders ws).records = some i →
      (statusUpsert ws sid status errv ton nowStr).rows.length
          = (fixHeaders ws).rows.length ∧
      ((statusUpsert ws sid status errv ton nowStr).rows.getD (i - 2) []).getD 5 "" = status ∧
      ((statusUpsert ws sid status errv ton nowStr).rows.getD (i - 2) []).getD 6 "" = errv) ∧
    (∀ (ws : Sheet) sid st1 e1 ton1 now1 st2 e2 ton2 now2,
      ws.headers = requiredHeaders →
      pyStrip sid = sid →
      findSidFrom sid 2 ws.records = none →
      (statusUpsert (statusUpsert ws sid st1 e1 ton1 now1) sid st2 e2 ton2 now2).rows.length
        = ws.rows.length + 1) := by
  refine ⟨?_, ?_, ?_⟩
  · intro ws sid status errv ton nowStr hnone
    simp [statusUpsert, hnone]
  · intro ws sid status errv ton nowStr i hfind
    have hb := findSidFrom_bounds sid ((fixHeaders ws).records) 2 i hfind
    have hklen : i - 2 < (fixHeaders ws).rows.length := by
      have h2 := hb.2
      simpa [Sheet.records] using h2
    have heq : statusUpsert ws sid status errv ton nowStr
        = ((fixHeaders ws).updateCell i 6 status).updateCell i 7 errv := by
      simp only [statusUpsert, hfind]
      rw [statusCol_eq, errorCol_eq]
    rw [heq]
    exact updateCell_twice_getD (fixHeaders ws) i status errv hklen
  · intro ws sid st1 e1 ton1 now1 st2 e2 ton2 now2 hh hstrip hnone
    obtain ⟨wh, wr⟩ := ws
    replace hh : wh = requiredHeaders := hh
    subst hh
    have hfix : fixHeaders ⟨requiredHeaders, wr⟩ = ⟨requiredHeaders, wr⟩ :=
      fixHeaders_required _ rfl
    have h1 : statusUpsert ⟨requiredHeaders, wr⟩ sid st1 e1 ton1 now1
        = ⟨requiredHeaders, wr ++ [[now1, "", ton1, "Status Update", "", st1, e1, sid]]⟩ := by
      simp only [statusUpsert, hfix, hnone]
    have hfound : findSidFrom sid 2
        (Sheet.records ⟨requiredHeaders, wr ++ [[now1, "", ton1, "Status Update", "", st1, e1, sid]]⟩)
        = some (2 + (Sheet.records ⟨requiredHeaders, wr⟩).length) := by
      rw [records_append, findSidFrom_append, hnone]
      simp [getField_status_row_sid, hstrip]
    have hfix1 : fixHeaders ⟨requiredHeaders, wr ++ [[now1, "", ton1, "Status Update", "", st1, e1, sid]]⟩
        = ⟨requiredHeaders, wr ++ [[now1, "", ton1, "Status Update", "", st1, e1, sid]]⟩ :=
      fixHeaders_required _ rfl
    have heq2 : statusUpsert
          ⟨requiredHeaders, wr ++ [[now1, "", ton1, "Status Update", "", st1, e1, sid]]⟩
          sid st2 e2 ton2 now2
        = (((⟨requiredHeaders, wr ++ [[now1, "", ton1, "Status Update", "", st1, e1, sid]]⟩ : Sheet).updateCell
              (2 + (Sheet.records ⟨requiredHeaders, wr⟩).length) 6 st2).updateCell
            (2 + (Sheet.records ⟨requiredHeaders, wr⟩).length) 7 e2) := by
      simp only [statusUpsert, hfix1, hfound]
      rw [statusCol_eq, errorCol_eq]
    rw [h1, heq2]
    simp only [Sheet.updateCell, List.length_set]
    simp

/-- C2 counterexample: the row inserted on a miss is not blank outside
sid/status/error/timestamp — its `Type` cell is `"Status Update"` and its
`Phone` cell carries the destination number. -/
theorem status_insert_not_blank_counterexample :
    ((statusUpsert demoLog "SID1" "delivered" "" "+50760000000" "01-01-2026 00:00").rows.getD 0
        []).getD 3 "" = "Status Update" ∧
    ((statusUpsert demoLog "SID1" "delivered" "" "+50760000000" "01-01-2026 00:00").rows.getD 0
        []).getD 2 "" = "+50760000000" ∧
    ("Status Update" : String) ≠ "" ∧ ("+50760000000" : String) ≠ "" := by decide

/-- C2 witness: inserting a status row for an unseen sid and then calling
again with the same sid leaves exactly one row (update, not a second
insert). -/
theorem status_upsert_per_sid_witness :
    (statusUpsert (statusUpsert demoLog "SID1" "delivered" "" "p" "d1") "SID1" "failed" "30007"
        "p" "d2").rows.length = demoLog.rows.length + 1 :=
  status_upsert_per_sid.2.2 demoLog "SID1" "delivered" "" "p" "d1" "failed" "30007" "p" "d2"
    rfl rfl rfl

end SardaarWebhook
